import Mathlib

/-!
Shallow embedding of the TradingView chart-capture actor (`main.js`, two
variants separated in the repository source) together with its helper
scripts.  Pure computations (configuration resolution, interval parsing,
file-name derivation, base64 encoding) are translated directly; the
effectful pipeline (browser lifecycle, navigation, interactions,
persistence) is modelled as a function from an environment describing the
outcome of each external call to a run result recording the fatal/ok
outcome and the externally visible state (browser teardown count,
attempted indicator insertions, stored blobs, appended dataset records).
-/

namespace TVCapture

/-! ### Configuration resolution (main.js, input destructuring with defaults)

The input mapping comes from `Actor.getInput()` (parsed JSON), so each
field is either absent (`none`, destructuring default applies) or present
with a value that is passed through. -/

structure InputMap where
  symbol : Option String
  interval : Option String
  indicators : Option (List String)
  theme : Option String
  width : Option Nat
  height : Option Nat
  hideUi : Option Bool
  loginUsername : Option String
  loginPassword : Option String
  outputFileName : Option String
deriving Repr, DecidableEq

structure Config where
  symbol : String
  interval : String
  indicators : List String
  theme : String
  width : Nat
  height : Nat
  hideUi : Bool
  loginUsername : Option String
  loginPassword : Option String
  outputFileName : Option String
deriving Repr, DecidableEq

def resolveConfig (inp : InputMap) : Config :=
  { symbol := inp.symbol.getD "BINANCE:BTCUSDT"
    interval := inp.interval.getD "1h"
    indicators := inp.indicators.getD ["RSI", "EMA 20", "EMA 50"]
    theme := inp.theme.getD "dark"
    width := inp.width.getD 1280
    height := inp.height.getD 720
    hideUi := inp.hideUi.getD true
    loginUsername := inp.loginUsername
    loginPassword := inp.loginPassword
    outputFileName := inp.outputFileName }

/-! ### Timeframe parsing (main.js lines 115-131)

`intervalKey = interval.toLowerCase().replace(/\d+/, '')` removes the
first maximal digit run after lower-casing; `intervalNumber =
interval.match(/\d+/)?.[0] || ''` is the first maximal digit run (or
empty).  One key press is emitted per digit of `intervalNumber`, then one
press of `intervalKey` when it is non-empty. -/

def jsToLower (s : String) : String := String.mk (s.data.map Char.toLower)

def takeDigits : List Char → List Char
  | [] => []
  | c :: cs => if c.isDigit then c :: takeDigits cs else []

def dropLeadingDigits : List Char → List Char
  | [] => []
  | c :: cs => if c.isDigit then dropLeadingDigits cs else c :: cs

def firstDigitRun : List Char → List Char
  | [] => []
  | c :: cs => if c.isDigit then takeDigits (c :: cs) else firstDigitRun cs

def removeFirstDigitRun : List Char → List Char
  | [] => []
  | c :: cs => if c.isDigit then dropLeadingDigits (c :: cs) else c :: removeFirstDigitRun cs

def intervalKey (interval : String) : String :=
  String.mk (removeFirstDigitRun (jsToLower interval).data)

def intervalNumber (interval : String) : String :=
  String.mk (firstDigitRun interval.data)

def timeframeKeystrokes (interval : String) : List String :=
  ((intervalNumber interval).data.map (fun d => String.mk [d]))
    ++ (if intervalKey interval = "" then [] else [intervalKey interval])

/-! ### Indicator insertion loop (main.js lines 141-161)

`for (const indicator of indicators) { try { ...steps... } catch { log } }`:
every element is attempted once, in order; a failed attempt is recorded
(logged) and the loop continues. -/

def attemptIndicators (fails : String → Bool) : List String → List (String × Bool)
  | [] => []
  | i :: rest => (i, !fails i) :: attemptIndicators fails rest

/-! ### Output file name (main.js lines 207-210)

`timestamp = new Date().toISOString().replace(/[:.]/g, '-').slice(0, -5)`,
`safeSymbol = symbol.replace(/[^a-zA-Z0-9]/g, '_')`,
`fileName = outputFileName || backtick-template chart_safeSymbol_timestamp`.

`Date.prototype.toISOString` is an external platform primitive; it is
modelled by its documented output shape `YYYY-MM-DDTHH:MM:SS.mmmZ`, each
component zero-padded (years up to 9999). -/

structure JsDate where
  year : Nat
  month : Nat
  day : Nat
  hour : Nat
  minute : Nat
  second : Nat
  millis : Nat
deriving Repr, DecidableEq

def isoDigit (n k : Nat) : Char := Nat.digitChar (n / 10 ^ k % 10)

def isoChars (d : JsDate) : List Char :=
  [isoDigit d.year 3, isoDigit d.year 2, isoDigit d.year 1, isoDigit d.year 0, '-',
   isoDigit d.month 1, isoDigit d.month 0, '-',
   isoDigit d.day 1, isoDigit d.day 0, 'T',
   isoDigit d.hour 1, isoDigit d.hour 0, ':',
   isoDigit d.minute 1, isoDigit d.minute 0, ':',
   isoDigit d.second 1, isoDigit d.second 0, '.',
   isoDigit d.millis 2, isoDigit d.millis 1, isoDigit d.millis 0, 'Z']

def toISOString (d : JsDate) : String := String.mk (isoChars d)

def jsReplaceColonDot (s : String) : String :=
  String.mk (s.data.map (fun c => if c == ':' || c == '.' then '-' else c))

def jsSliceDropLast (s : String) (k : Nat) : String :=
  String.mk (s.data.take (s.data.length - k))

def timestampOf (d : JsDate) : String :=
  jsSliceDropLast (jsReplaceColonDot (toISOString d)) 5

def isAlnum (c : Char) : Bool :=
  ('a' ≤ c && c ≤ 'z') || ('A' ≤ c && c ≤ 'Z') || ('0' ≤ c && c ≤ '9')

def safeSymbol (symbol : String) : String :=
  String.mk (symbol.data.map (fun c => if isAlnum c then c else '_'))

def derivedFileName (symbol : String) (d : JsDate) : String :=
  "chart_" ++ safeSymbol symbol ++ "_" ++ timestampOf d

def fileName (symbol : String) (outputFileName : Option String) (d : JsDate) : String :=
  match outputFileName with
  | some s => if s = "" then derivedFileName symbol d else s
  | none => derivedFileName symbol d

/-- The whole-second prefix of the transformed ISO timestamp: what the
spec means by "a sortable timestamp truncated to whole seconds". -/
def timestampWholeSeconds (d : JsDate) : String :=
  String.mk
    [isoDigit d.year 3, isoDigit d.year 2, isoDigit d.year 1, isoDigit d.year 0, '-',
     isoDigit d.month 1, isoDigit d.month 0, '-',
     isoDigit d.day 1, isoDigit d.day 0, 'T',
     isoDigit d.hour 1, isoDigit d.hour 0, '-',
     isoDigit d.minute 1, isoDigit d.minute 0, '-',
     isoDigit d.second 1, isoDigit d.second 0]

/-! ### Base64 encoding (main.js lines 225-226)

`screenshot.toString('base64')` is Node's standard RFC 4648 base64 with
padding; the data URL prepends the fixed prefix.  A decoder is defined to
state the round-trip claim. -/

def b64Alphabet : List Char :=
  "ABCDEFGHIJKLMNOPQRSTUVWXYZabcdefghijklmnopqrstuvwxyz0123456789+/".data

def b64Char (n : Nat) : Char := b64Alphabet.getD n 'A'

def b64Val (c : Char) : Nat :=
  if 'A' ≤ c ∧ c ≤ 'Z' then c.toNat - 65
  else if 'a' ≤ c ∧ c ≤ 'z' then c.toNat - 97 + 26
  else if '0' ≤ c ∧ c ≤ '9' then c.toNat - 48 + 52
  else if c = '+' then 62
  else 63

def encodeB64 : List Nat → List Char
  | [] => []
  | [a] => [b64Char (a / 4), b64Char (a % 4 * 16), '=', '=']
  | [a, b] => [b64Char (a / 4), b64Char (a % 4 * 16 + b / 16), b64Char (b % 16 * 4), '=']
  | a :: b :: c :: rest =>
      b64Char (a / 4) :: b64Char (a % 4 * 16 + b / 16) ::
        b64Char (b % 16 * 4 + c / 64) :: b64Char (c % 64) :: encodeB64 rest

def decodeB64 : List Char → List Nat
  | c0 :: c1 :: c2 :: c3 :: rest =>
      if c2 = '=' then [b64Val c0 * 4 + b64Val c1 / 16]
      else if c3 = '=' then
        [b64Val c0 * 4 + b64Val c1 / 16, b64Val c1 % 16 * 16 + b64Val c2 / 4]
      else
        (b64Val c0 * 4 + b64Val c1 / 16) :: (b64Val c1 % 16 * 16 + b64Val c2 / 4) ::
          (b64Val c2 % 4 * 64 + b64Val c3) :: decodeB64 rest
  | _ => []

def screenshotBase64 (bytes : List Nat) : String := String.mk (encodeB64 bytes)

def screenshotDataUrl (bytes : List Nat) : String :=
  "data:image/png;base64," ++ screenshotBase64 bytes

/-! ### Pipeline model

The effectful pipeline is embedded as a function from an environment
(which external call succeeds/fails, what the external world returns) to
a run result.  `main.js` exists in two variants in the repository:

* variant 1 (`domcontentloaded` navigation, `canvas` readiness marker in
  a try/catch, `Actor.setValue` and `Actor.getPublicUrl` in try/catch,
  `Actor.pushData` with a one-retry placeholder fallback);
* variant 2 (`networkidle` navigation, `legend-source-item` readiness
  marker NOT wrapped, `Actor.setValue`/`getPublicUrl`/`pushData` NOT
  wrapped, no fallback).

In both variants `chromium.launch`, `browser.newContext` and
`context.newPage` happen before the inner `try { ... } finally {
browser.close() }`, and the whole body is inside
`try { ... } catch (e) { log; throw e } finally { Actor.exit() }`. -/

structure Env where
  input : Option InputMap
  launchOk : Bool
  newContextOk : Bool
  newPageOk : Bool
  gotoOk : Bool
  markerOk : Bool
  loginOk : Bool
  themeOk : Bool
  timeframeOk : Bool
  indicatorFails : String → Bool
  hideUiOk : Bool
  screenshotOk : Bool
  screenshotBytes : List Nat
  setValueOk : Bool
  publicUrlOk : Bool
  publicUrl : String
  pushDataOk1 : Bool
  pushDataOk2 : Bool
  date : JsDate

structure DatasetRecord where
  symbol : String
  interval : String
  indicators : List String
  theme : String
  width : Nat
  height : Nat
  screenshotBase64 : String
  screenshotDataUrl : String
  screenshotUrl : String
  screenshotKey : String
  timestamp : String
deriving Repr, DecidableEq

inductive Outcome where
  | ok : Outcome
  | fatal : String → Outcome
deriving Repr, DecidableEq

structure RunState where
  browserLaunched : Bool
  closeCount : Nat
  warnings : List String
  attempted : List String
  savedKeys : List String
  pushAttempts : Nat
  pushed : List DatasetRecord
deriving Repr, DecidableEq

def initState : RunState :=
  { browserLaunched := false, closeCount := 0, warnings := [], attempted := [],
    savedKeys := [], pushAttempts := 0, pushed := [] }

/-- Warnings logged by the indicator loop for the attempts whose steps
threw (`Failed to add indicator: ...`). -/
def indicatorWarnings (attempts : List (String × Bool)) : List String :=
  (attempts.filter (fun p => !p.2)).map (fun p => "Failed to add indicator: " ++ p.1)

/-- Interaction sequence (login, theme, timeframe, indicators, hide-UI);
identical in both variants, every sub-step is wrapped in its own
try/catch, so each failure only logs and the sequence continues. -/
def interactionPhase (env : Env) (cfg : Config) (st : RunState) : RunState :=
  let loginWarn :=
    if cfg.loginUsername.isSome && cfg.loginPassword.isSome && !env.loginOk then
      ["Login failed or not needed"] else []
  let themeWarn :=
    if cfg.theme = "light" && !env.themeOk then ["Theme toggle failed"] else []
  let tfWarn := if !env.timeframeOk then ["Timeframe change may have failed"] else []
  let attempts := attemptIndicators env.indicatorFails cfg.indicators
  let hideWarn :=
    if cfg.hideUi && !env.hideUiOk then ["Failed to hide some UI elements"] else []
  { st with
    warnings := st.warnings ++ loginWarn ++ themeWarn ++ tfWarn
      ++ indicatorWarnings attempts ++ hideWarn
    attempted := st.attempted ++ attempts.map Prod.fst }

/-- Dataset record pushed on success (main.js lines 253-265). -/
def mkResult (env : Env) (cfg : Config) (key b64 dataUrl url : String) : DatasetRecord :=
  { symbol := cfg.symbol, interval := cfg.interval, indicators := cfg.indicators,
    theme := cfg.theme, width := cfg.width, height := cfg.height,
    screenshotBase64 := b64, screenshotDataUrl := dataUrl,
    screenshotUrl := url, screenshotKey := key, timestamp := toISOString env.date }

/-- Capture-and-persist tail of variant 1 (main.js lines 205-289):
screenshot failure is fatal; `Actor.setValue` and `Actor.getPublicUrl`
failures are caught and logged; `Actor.pushData` failure triggers one
retry with placeholder strings, and a second failure is fatal. -/
def persistPhase1 (env : Env) (cfg : Config) (st : RunState) : Outcome × RunState :=
  if !env.screenshotOk then (.fatal "screenshot", st)
  else
    let key := fileName cfg.symbol cfg.outputFileName env.date ++ ".png"
    let b64 := TVCapture.screenshotBase64 env.screenshotBytes
    let dataUrl := TVCapture.screenshotDataUrl env.screenshotBytes
    let st :=
      if env.setValueOk then { st with savedKeys := st.savedKeys ++ [key] }
      else { st with warnings := st.warnings ++ ["Failed to save screenshot to Key-Value store"] }
    let st :=
      if env.publicUrlOk then st
      else { st with warnings := st.warnings ++ ["Failed to get public URL"] }
    let url := if env.publicUrlOk then env.publicUrl else ""
    let result := mkResult env cfg key b64 dataUrl url
    let st := { st with pushAttempts := st.pushAttempts + 1 }
    if env.pushDataOk1 then (.ok, { st with pushed := st.pushed ++ [result] })
    else
      let fallback :=
        { result with
          screenshotBase64 := "[Base64 data too large: " ++ toString b64.length ++ " chars]"
          screenshotDataUrl := "[Data URL too large: " ++ toString dataUrl.length ++ " chars]" }
      let st := { st with pushAttempts := st.pushAttempts + 1 }
      if env.pushDataOk2 then (.ok, { st with pushed := st.pushed ++ [fallback] })
      else (.fatal "pushData", st)

/-- Capture-and-persist tail of variant 2 (main.js lines 498-534): none
of the persistence calls is wrapped, so each failure is fatal, and there
is no `pushData` fallback. -/
def persistPhase2 (env : Env) (cfg : Config) (st : RunState) : Outcome × RunState :=
  if !env.screenshotOk then (.fatal "screenshot", st)
  else
    let key := fileName cfg.symbol cfg.outputFileName env.date ++ ".png"
    let b64 := TVCapture.screenshotBase64 env.screenshotBytes
    let dataUrl := TVCapture.screenshotDataUrl env.screenshotBytes
    if !env.setValueOk then (.fatal "setValue", st)
    else
      let st := { st with savedKeys := st.savedKeys ++ [key] }
      if !env.publicUrlOk then (.fatal "getPublicUrl", st)
      else
        let result := mkResult env cfg key b64 dataUrl env.publicUrl
        let st := { st with pushAttempts := st.pushAttempts + 1 }
        if env.pushDataOk1 then (.ok, { st with pushed := st.pushed ++ [result] })
        else (.fatal "pushData", st)

/-- Body of the inner try of variant 1 (main.js lines 46-289): navigation
failure is fatal; the `canvas` readiness wait is in a try/catch, so its
failure only logs a warning and the pipeline continues. -/
def innerPhase1 (env : Env) (cfg : Config) : Outcome × RunState :=
  let st := { initState with browserLaunched := true }
  if !env.gotoOk then (.fatal "goto", st)
  else
    let st :=
      if env.markerOk then st
      else { st with warnings := st.warnings ++ ["Canvas not found, trying alternative selector..."] }
    let st := interactionPhase env cfg st
    persistPhase1 env cfg st

/-- Body of the inner try of variant 2 (main.js lines 348-534): the
`legend-source-item` readiness wait is NOT wrapped, so its failure is
fatal. -/
def innerPhase2 (env : Env) (cfg : Config) : Outcome × RunState :=
  let st := { initState with browserLaunched := true }
  if !env.gotoOk then (.fatal "goto", st)
  else if !env.markerOk then (.fatal "waitForSelector", st)
  else
    let st := interactionPhase env cfg st
    persistPhase2 env cfg st

/-- Outer structure shared by both variants: `getInput` returning null
makes the destructuring throw before any browser is launched;
`chromium.launch`, `browser.newContext` and `context.newPage` run BEFORE
the inner try/finally, so their failures propagate without
`browser.close()`; once the inner try is entered, the `finally` runs
`browser.close()` exactly once on every path. -/
def runWith (inner : Env → Config → Outcome × RunState) (env : Env) : Outcome × RunState :=
  match env.input with
  | none => (.fatal "TypeError", initState)
  | some inp =>
    let cfg := resolveConfig inp
    if !env.launchOk then (.fatal "launch", initState)
    else
      let st := { initState with browserLaunched := true }
      if !env.newContextOk then (.fatal "newContext", st)
      else if !env.newPageOk then (.fatal "newPage", st)
      else
        let r := inner env cfg
        (r.1, { r.2 with closeCount := r.2.closeCount + 1 })

def runPipeline1 (env : Env) : Outcome × RunState := runWith innerPhase1 env

def runPipeline2 (env : Env) : Outcome × RunState := runWith innerPhase2 env

/-! ### Helper lemmas -/

theorem isoDigit_not_sep (n k : Nat) :
    (isoDigit n k == ':' || isoDigit n k == '.') = false := by
  unfold isoDigit
  have h : n / 10 ^ k % 10 < 10 := Nat.mod_lt _ (by norm_num)
  revert h
  generalize n / 10 ^ k % 10 = m
  intro h
  interval_cases m <;> rfl

theorem timestampOf_eq_wholeSeconds (d : JsDate) :
    timestampOf d = timestampWholeSeconds d := by
  unfold timestampOf jsSliceDropLast jsReplaceColonDot toISOString isoChars timestampWholeSeconds
  simp only [List.map_cons, List.map_nil, isoDigit_not_sep, Bool.false_eq_true, if_false]
  rfl

theorem b64Val_b64Char : ∀ n < 64, b64Val (b64Char n) = n := by decide

theorem b64Char_ne_pad : ∀ n < 64, b64Char n ≠ '=' := by decide

theorem decode_encode (l : List Nat) (h : ∀ b ∈ l, b < 256) :
    decodeB64 (encodeB64 l) = l := by
  induction l using encodeB64.induct with
  | case1 => rfl
  | case2 a =>
      have ha : a < 256 := h a (by simp)
      show decodeB64 [b64Char (a / 4), b64Char (a % 4 * 16), '=', '='] = [a]
      simp only [decodeB64, if_true]
      rw [b64Val_b64Char _ (by omega), b64Val_b64Char _ (by omega)]
      simp only [List.cons.injEq, and_true]
      omega
  | case3 a b =>
      have ha : a < 256 := h a (by simp)
      have hb : b < 256 := h b (by simp)
      show decodeB64 [b64Char (a / 4), b64Char (a % 4 * 16 + b / 16),
        b64Char (b % 16 * 4), '='] = [a, b]
      simp only [decodeB64]
      rw [if_neg (b64Char_ne_pad _ (by omega))]
      simp only [if_true]
      rw [b64Val_b64Char _ (by omega), b64Val_b64Char _ (by omega), b64Val_b64Char _ (by omega)]
      simp only [List.cons.injEq, and_true]
      constructor <;> omega
  | case4 a b c rest ih =>
      have ha : a < 256 := h a (by simp)
      have hb : b < 256 := h b (by simp)
      have hc : c < 256 := h c (by simp)
      show decodeB64 (b64Char (a / 4) :: b64Char (a % 4 * 16 + b / 16) ::
        b64Char (b % 16 * 4 + c / 64) :: b64Char (c % 64) :: encodeB64 rest) = a :: b :: c :: rest
      simp only [decodeB64]
      rw [if_neg (b64Char_ne_pad _ (by omega)), if_neg (b64Char_ne_pad _ (by omega))]
      rw [b64Val_b64Char _ (by omega), b64Val_b64Char _ (by omega),
        b64Val_b64Char _ (by omega), b64Val_b64Char _ (by omega)]
      rw [ih (fun x hx => h x (by simp [hx]))]
      simp only [List.cons.injEq, and_true]
      refine ⟨by omega, by omega, by omega⟩

theorem attemptIndicators_map_fst (fails : String → Bool) (inds : List String) :
    (attemptIndicators fails inds).map Prod.fst = inds := by
  induction inds with
  | nil => rfl
  | cons i rest ih => simp [attemptIndicators, ih]

/-! ### Claim theorems -/

/-- Claim C1: for every input mapping, the resolved configuration assigns
the documented default (symbol "BINANCE:BTCUSDT", interval "1h",
indicators ["RSI", "EMA 20", "EMA 50"], theme "dark", width 1280, height
720, hideUi true, credentials none, outputFileName none) to exactly the
absent fields, and passes every present field through unchanged. -/
theorem config_resolution_defaults (inp : InputMap) :
    ((inp.symbol = none → (resolveConfig inp).symbol = "BINANCE:BTCUSDT") ∧
      ∀ v, inp.symbol = some v → (resolveConfig inp).symbol = v) ∧
    ((inp.interval = none → (resolveConfig inp).interval = "1h") ∧
      ∀ v, inp.interval = some v → (resolveConfig inp).interval = v) ∧
    ((inp.indicators = none → (resolveConfig inp).indicators = ["RSI", "EMA 20", "EMA 50"]) ∧
      ∀ v, inp.indicators = some v → (resolveConfig inp).indicators = v) ∧
    ((inp.theme = none → (resolveConfig inp).theme = "dark") ∧
      ∀ v, inp.theme = some v → (resolveConfig inp).theme = v) ∧
    ((inp.width = none → (resolveConfig inp).width = 1280) ∧
      ∀ v, inp.width = some v → (resolveConfig inp).width = v) ∧
    ((inp.height = none → (resolveConfig inp).height = 720) ∧
      ∀ v, inp.height = some v → (resolveConfig inp).height = v) ∧
    ((inp.hideUi = none → (resolveConfig inp).hideUi = true) ∧
      ∀ v, inp.hideUi = some v → (resolveConfig inp).hideUi = v) ∧
    (resolveConfig inp).loginUsername = inp.loginUsername ∧
    (resolveConfig inp).loginPassword = inp.loginPassword ∧
    (resolveConfig inp).outputFileName = inp.outputFileName := by
  repeat' apply And.intro
  all_goals
    first
      | rfl
      | (intro h; simp [resolveConfig, h])
      | (intro v h; simp [resolveConfig, h])

/-- Witness for C1 at a concrete input: interval and height present are
passed through, absent symbol gets the default. -/
theorem config_resolution_defaults_witness :
    (resolveConfig ⟨none, some "5m", none, none, none, some 900, none, none, none, none⟩).symbol
        = "BINANCE:BTCUSDT" ∧
    (resolveConfig ⟨none, some "5m", none, none, none, some 900, none, none, none, none⟩).interval
        = "5m" ∧
    (resolveConfig ⟨none, some "5m", none, none, none, some 900, none, none, none, none⟩).height
        = 900 :=
  ⟨(config_resolution_defaults _).1.1 rfl,
    (config_resolution_defaults _).2.1.2 "5m" rfl,
    (config_resolution_defaults _).2.2.2.2.2.1.2 900 rfl⟩

/-- Claim C5: the timeframe parser gives numeric run "4" and code "h" for
"4h", "1" and lower-cased "d" for "1D", "1" and "m" for "1m"; the
keystroke sequence is one keystroke per digit of the numeric run, in
order, followed by one keystroke for the alphabetic code. -/
theorem timeframe_parsing (interval : String) (h : intervalKey interval ≠ "") :
    (intervalNumber "4h" = "4" ∧ intervalKey "4h" = "h") ∧
    (intervalNumber "1D" = "1" ∧ intervalKey "1D" = "d") ∧
    (intervalNumber "1m" = "1" ∧ intervalKey "1m" = "m") ∧
    timeframeKeystrokes "4h" = ["4", "h"] ∧
    timeframeKeystrokes interval =
      ((intervalNumber interval).data.map (fun d => String.mk [d])) ++ [intervalKey interval] := by
  refine ⟨⟨by decide, by decide⟩, ⟨by decide, by decide⟩, ⟨by decide, by decide⟩, by decide, ?_⟩
  simp [timeframeKeystrokes, h]

/-- Witness for C5 at interval "15m". -/
theorem timeframe_parsing_witness :
    timeframeKeystrokes "15m" =
      ((intervalNumber "15m").data.map (fun d => String.mk [d])) ++ [intervalKey "15m"] :=
  (timeframe_parsing "15m" (by decide)).2.2.2.2

/-- Claim C6: the indicator loop attempts exactly one insertion per list
element, in list order, whatever the set of failing insertions; for
["RSI", "EMA 20"] with the first insertion failing, both insertions are
still attempted in order. -/
theorem indicator_attempts_in_order (fails : String → Bool) (inds : List String) :
    (attemptIndicators fails inds).map Prod.fst = inds ∧
    attemptIndicators (fun s => s == "RSI") ["RSI", "EMA 20"]
      = [("RSI", false), ("EMA 20", true)] :=
  ⟨attemptIndicators_map_fst fails inds, by decide⟩

/-- Claim C7 (amended): with no explicit output name the derived name is
"chart_" ++ sanitized symbol ++ "_" ++ timestamp truncated to whole
seconds, sanitizing replaces every character outside [A-Za-z0-9] by "_",
and a supplied NON-EMPTY output name is used instead (an empty string is
falsy in the `outputFileName || derived` expression, so it falls back to
the derived name). -/
theorem derived_filename (symbol s : String) (d : JsDate) (h : s ≠ "") :
    fileName symbol none d = "chart_" ++ safeSymbol symbol ++ "_" ++ timestampOf d ∧
    (safeSymbol symbol).data = symbol.data.map (fun c => if isAlnum c then c else '_') ∧
    timestampOf d = timestampWholeSeconds d ∧
    fileName "BINANCE:BTCUSDT" none d = "chart_BINANCE_BTCUSDT_" ++ timestampWholeSeconds d ∧
    fileName symbol (some s) d = s := by
  refine ⟨rfl, rfl, timestampOf_eq_wholeSeconds d, ?_, by simp [fileName, h]⟩
  rw [show fileName "BINANCE:BTCUSDT" none d = "chart_BINANCE_BTCUSDT_" ++ timestampOf d from rfl,
    timestampOf_eq_wholeSeconds]

/-- Witness for C7's amended theorem at a concrete symbol, name, date. -/
theorem derived_filename_witness :
    fileName "BINANCE:BTCUSDT" (some "custom") ⟨2024, 1, 1, 12, 0, 0, 0⟩ = "custom" :=
  (derived_filename "BINANCE:BTCUSDT" "custom" ⟨2024, 1, 1, 12, 0, 0, 0⟩ (by decide)).2.2.2.2

/-- Counterexample to C7 as stated: the explicit output name "" is
supplied but is NOT used; the derived name is produced instead. -/
theorem filename_empty_name_counterexample :
    fileName "BINANCE:BTCUSDT" (some "") ⟨2024, 1, 1, 12, 0, 0, 0⟩ =
      "chart_BINANCE_BTCUSDT_2024-01-01T12-00-00" ∧
    "chart_BINANCE_BTCUSDT_2024-01-01T12-00-00" ≠ "" :=
  ⟨by decide, by decide⟩

/-- Claim C8: the base64 field decodes back to exactly the captured
bytes, and the data-URL field is "data:image/png;base64," followed by the
base64 string. -/
theorem base64_roundtrip_and_dataurl (bytes : List Nat) (h : ∀ b ∈ bytes, b < 256) :
    decodeB64 (screenshotBase64 bytes).data = bytes ∧
    screenshotDataUrl bytes = "data:image/png;base64," ++ screenshotBase64 bytes :=
  ⟨decode_encode bytes h, rfl⟩

/-- Witness for C8 on the PNG magic bytes. -/
theorem base64_roundtrip_and_dataurl_witness :
    decodeB64 (screenshotBase64 [137, 80, 78, 71]).data = [137, 80, 78, 71] :=
  (base64_roundtrip_and_dataurl [137, 80, 78, 71] (by decide)).1

/-! ### Concrete environments for pipeline witnesses and counterexamples -/

def baseInput : InputMap := ⟨none, none, none, none, none, none, none, none, none, none⟩

def baseEnv : Env :=
  { input := some baseInput, launchOk := true, newContextOk := true, newPageOk := true,
    gotoOk := true, markerOk := true, loginOk := true, themeOk := true, timeframeOk := true,
    indicatorFails := fun _ => false, hideUiOk := true, screenshotOk := true,
    screenshotBytes := [137, 80, 78, 71], setValueOk := true, publicUrlOk := true,
    publicUrl := "https://example.org/chart.png", pushDataOk1 := true, pushDataOk2 := true,
    date := ⟨2024, 1, 1, 12, 0, 0, 0⟩ }

/-! ### Pipeline helper lemmas -/

theorem persistPhase1_closeCount (env : Env) (cfg : Config) (st : RunState) :
    (persistPhase1 env cfg st).2.closeCount = st.closeCount := by
  cases hs : env.screenshotOk <;> cases hv : env.setValueOk <;> cases hu : env.publicUrlOk <;>
    cases hp1 : env.pushDataOk1 <;> cases hp2 : env.pushDataOk2 <;>
      simp [persistPhase1, hs, hv, hu, hp1, hp2]

theorem persistPhase2_closeCount (env : Env) (cfg : Config) (st : RunState) :
    (persistPhase2 env cfg st).2.closeCount = st.closeCount := by
  cases hs : env.screenshotOk <;> cases hv : env.setValueOk <;> cases hu : env.publicUrlOk <;>
    cases hp1 : env.pushDataOk1 <;>
      simp [persistPhase2, hs, hv, hu, hp1]

theorem interactionPhase_closeCount (env : Env) (cfg : Config) (st : RunState) :
    (interactionPhase env cfg st).closeCount = st.closeCount := rfl

theorem innerPhase1_closeCount (env : Env) (cfg : Config) :
    (innerPhase1 env cfg).2.closeCount = 0 := by
  cases hg : env.gotoOk <;> cases hm : env.markerOk <;>
    simp [innerPhase1, hg, hm, persistPhase1_closeCount, interactionPhase_closeCount, initState]

theorem innerPhase2_closeCount (env : Env) (cfg : Config) :
    (innerPhase2 env cfg).2.closeCount = 0 := by
  cases hg : env.gotoOk <;> cases hm : env.markerOk <;>
    simp [innerPhase2, hg, hm, persistPhase2_closeCount, interactionPhase_closeCount, initState]

theorem b64_placeholder_char (n : Nat) :
    ("[Base64 data too large: " ++ toString n ++ " chars]").data[1]? = some 'B' := by
  rw [String.data_append, String.data_append]
  rw [List.getElem?_append_left
    (by rw [List.length_append]
        have h24 : ("[Base64 data too large: ".data).length = 24 := rfl
        omega)]
  rw [List.getElem?_append_left (by decide)]
  rfl

/-! ### Pipeline claim theorems -/

/-- Claim C10: when `getInput` yields null (no input mapping), the
destructuring throws, the run ends fatally before any browser is
launched, and no teardown happens (there is nothing to tear down). -/
theorem null_input_fatal_before_launch (env : Env) (hi : env.input = none) :
    (runPipeline1 env).1 = .fatal "TypeError" ∧
    (runPipeline1 env).2.browserLaunched = false ∧
    (runPipeline1 env).2.closeCount = 0 ∧
    (runPipeline2 env).1 = .fatal "TypeError" ∧
    (runPipeline2 env).2.browserLaunched = false ∧
    (runPipeline2 env).2.closeCount = 0 := by
  simp [runPipeline1, runPipeline2, runWith, hi, initState]

/-- Witness for C10: the concrete environment with null input. -/
theorem null_input_fatal_before_launch_witness :
    (runPipeline1 { baseEnv with input := none }).1 = .fatal "TypeError" :=
  (null_input_fatal_before_launch { baseEnv with input := none } rfl).1

/-- Claim C3 (amended): on every exit path that reaches the inner
try/finally block — i.e. after browser, context AND page creation all
succeed — `browser.close()` runs exactly once, whether the run succeeds,
fails advisorily, or fails fatally at any later step; a failure of
`browser.newContext` or `context.newPage` instead propagates WITHOUT
invoking `browser.close()`, because those calls precede the try/finally. -/
theorem teardown_after_page_created (env : Env) (inp : InputMap)
    (hi : env.input = some inp) (hl : env.launchOk = true)
    (hc : env.newContextOk = true) (hp : env.newPageOk = true) :
    (runPipeline1 env).2.closeCount = 1 ∧ (runPipeline2 env).2.closeCount = 1 := by
  simp [runPipeline1, runPipeline2, runWith, hi, hl, hc, hp,
    innerPhase1_closeCount, innerPhase2_closeCount]

/-- Witness for C3's amended theorem on the base environment. -/
theorem teardown_after_page_created_witness :
    (runPipeline1 baseEnv).2.closeCount = 1 ∧ (runPipeline2 baseEnv).2.closeCount = 1 :=
  teardown_after_page_created baseEnv baseInput rfl rfl rfl rfl

/-- Counterexample to C3 as stated: when `browser.newContext` fails the
browser was launched, the run is fatal, and `browser.close()` is never
invoked (teardown count 0, not 1). -/
theorem teardown_context_failure_counterexample :
    (runPipeline1 { baseEnv with newContextOk := false }).2.closeCount = 0 ∧
    (runPipeline1 { baseEnv with newContextOk := false }).2.browserLaunched = true ∧
    (runPipeline1 { baseEnv with newContextOk := false }).1 = .fatal "newContext" :=
  ⟨rfl, rfl, rfl⟩

/-- Claim C4 (amended): navigation failure is fatal in both variants; a
readiness-marker wait failure is caught, logged, and the pipeline still
runs the interaction steps in variant 1 (`canvas` marker wrapped in
try/catch), while in variant 2 (`legend-source-item` marker, not
wrapped) it propagates fatally and no interaction step runs. -/
theorem navigation_and_marker_handling (env : Env) (inp : InputMap)
    (hi : env.input = some inp) (hl : env.launchOk = true)
    (hc : env.newContextOk = true) (hp : env.newPageOk = true) :
    (env.gotoOk = false →
      (runPipeline1 env).1 = .fatal "goto" ∧ (runPipeline2 env).1 = .fatal "goto") ∧
    (env.gotoOk = true →
      (runPipeline1 env).2.attempted = (resolveConfig inp).indicators ∧
      (env.markerOk = false →
        "Canvas not found, trying alternative selector..." ∈ (runPipeline1 env).2.warnings ∧
        (runPipeline2 env).1 = .fatal "waitForSelector" ∧
        (runPipeline2 env).2.attempted = [])) := by
  constructor
  · intro hg
    simp [runPipeline1, runPipeline2, runWith, innerPhase1, innerPhase2, hi, hl, hc, hp, hg]
  · intro hg
    constructor
    · cases hm : env.markerOk <;> cases hs : env.screenshotOk <;>
        cases hv : env.setValueOk <;> cases hu : env.publicUrlOk <;>
          cases hp1 : env.pushDataOk1 <;> cases hp2 : env.pushDataOk2 <;>
            simp [runPipeline1, runWith, innerPhase1, interactionPhase, persistPhase1,
              attemptIndicators_map_fst, hi, hl, hc, hp, hg, hm, hs, hv, hu, hp1, hp2, initState]
    · intro hm
      refine ⟨?_, ?_, ?_⟩
      · cases hs : env.screenshotOk <;>
          cases hv : env.setValueOk <;> cases hu : env.publicUrlOk <;>
            cases hp1 : env.pushDataOk1 <;> cases hp2 : env.pushDataOk2 <;>
              simp [runPipeline1, runWith, innerPhase1, interactionPhase, persistPhase1,
                indicatorWarnings, hi, hl, hc, hp, hg, hm, hs, hv, hu, hp1, hp2, initState]
      · simp [runPipeline2, runWith, innerPhase2, hi, hl, hc, hp, hg, hm]
      · simp [runPipeline2, runWith, innerPhase2, hi, hl, hc, hp, hg, hm, initState]

/-- Witness for C4's amended theorem at a concrete environment whose
marker wait fails. -/
theorem navigation_and_marker_handling_witness :
    (runPipeline1 { baseEnv with markerOk := false }).2.attempted
        = (resolveConfig baseInput).indicators ∧
    (runPipeline2 { baseEnv with markerOk := false }).1 = .fatal "waitForSelector" := by
  have h := (navigation_and_marker_handling { baseEnv with markerOk := false }
    baseInput rfl rfl rfl rfl).2 rfl
  exact ⟨h.1, (h.2 rfl).2.1⟩

/-- Counterexample to C4 as stated: in variant 2 a run whose readiness
marker is not found ends fatally without reaching the interaction steps,
whereas the same run in variant 1 succeeds. -/
theorem marker_wait_variant2_counterexample :
    (runPipeline2 { baseEnv with markerOk := false }).1 = .fatal "waitForSelector" ∧
    (runPipeline2 { baseEnv with markerOk := false }).2.attempted = [] ∧
    (runPipeline2 { baseEnv with markerOk := false }).2.pushed = [] ∧
    (runPipeline1 { baseEnv with markerOk := false }).1 = .ok :=
  ⟨rfl, rfl, rfl, rfl⟩

/-- Claim C2 (amended): in variant 1, when the first `pushData` fails the
append is retried exactly once, with the base64 field replaced by
"[Base64 data too large: N chars]" and the data-URL field by
"[Data URL too large: N chars]" (N the respective original lengths); if
the retry also fails the run ends fatally. -/
theorem push_fallback_retry (env : Env) (inp : InputMap)
    (hi : env.input = some inp) (hl : env.launchOk = true)
    (hc : env.newContextOk = true) (hp : env.newPageOk = true)
    (hg : env.gotoOk = true) (hs : env.screenshotOk = true)
    (hp1 : env.pushDataOk1 = false) :
    (runPipeline1 env).2.pushAttempts = 2 ∧
    (env.pushDataOk2 = true →
      (runPipeline1 env).1 = .ok ∧
      (runPipeline1 env).2.pushed.map DatasetRecord.screenshotBase64 =
        ["[Base64 data too large: "
          ++ toString (screenshotBase64 env.screenshotBytes).length ++ " chars]"] ∧
      (runPipeline1 env).2.pushed.map DatasetRecord.screenshotDataUrl =
        ["[Data URL too large: "
          ++ toString (screenshotDataUrl env.screenshotBytes).length ++ " chars]"]) ∧
    (env.pushDataOk2 = false →
      (runPipeline1 env).1 = .fatal "pushData" ∧ (runPipeline1 env).2.pushed = []) := by
  cases hm : env.markerOk <;> cases hv : env.setValueOk <;> cases hu : env.publicUrlOk <;>
    cases hp2 : env.pushDataOk2 <;>
      simp [runPipeline1, runWith, innerPhase1, interactionPhase, persistPhase1, mkResult,
        hi, hl, hc, hp, hg, hs, hp1, hm, hv, hu, hp2, initState]

/-- Witness for C2's amended theorem: first append fails, retry succeeds. -/
theorem push_fallback_retry_witness :
    (runPipeline1 { baseEnv with pushDataOk1 := false }).2.pushAttempts = 2 :=
  (push_fallback_retry { baseEnv with pushDataOk1 := false }
    baseInput rfl rfl rfl rfl rfl rfl rfl).1

/-- Counterexample to C2 as stated: the fallback record's data-URL field
is "[Data URL too large: N chars]", which is not of the form
"[Base64 data too large: N chars]" for any N. -/
theorem push_fallback_placeholder_counterexample :
    (runPipeline1 { baseEnv with pushDataOk1 := false }).2.pushed.map
        DatasetRecord.screenshotDataUrl = ["[Data URL too large: 30 chars]"] ∧
    ∀ n : Nat, "[Data URL too large: 30 chars]" ≠
      "[Base64 data too large: " ++ toString n ++ " chars]" := by
  refine ⟨rfl, fun n h => ?_⟩
  have h2 : ("[Data URL too large: 30 chars]" : String).data[1]? =
      ("[Base64 data too large: " ++ toString n ++ " chars]").data[1]? :=
    congrArg (fun s : String => s.data[1]?) h
  rw [b64_placeholder_char] at h2
  exact absurd h2 (by decide)

/-- Claim C9 (amended): in variant 1 a blob-store write failure is caught
and logged, the blob is not saved, and the pipeline continues to the
public-locator and metadata-append steps (the append still happens and
the run can succeed); in variant 2 the same failure propagates fatally. -/
theorem blob_write_nonfatal_variant1 (env : Env) (inp : InputMap)
    (hi : env.input = some inp) (hl : env.launchOk = true)
    (hc : env.newContextOk = true) (hp : env.newPageOk = true)
    (hg : env.gotoOk = true) (hs : env.screenshotOk = true)
    (hv : env.setValueOk = false) :
    (runPipeline1 env).2.savedKeys = [] ∧
    "Failed to save screenshot to Key-Value store" ∈ (runPipeline1 env).2.warnings ∧
    (runPipeline1 env).2.pushAttempts = (if env.pushDataOk1 then 1 else 2) ∧
    (env.pushDataOk1 = true →
      (runPipeline1 env).1 = .ok ∧
      (runPipeline1 env).2.pushed.map DatasetRecord.screenshotBase64 =
        [screenshotBase64 env.screenshotBytes]) := by
  cases hm : env.markerOk <;> cases hu : env.publicUrlOk <;>
    cases hp1 : env.pushDataOk1 <;> cases hp2 : env.pushDataOk2 <;>
      simp [runPipeline1, runWith, innerPhase1, interactionPhase, persistPhase1, mkResult,
        indicatorWarnings, hi, hl, hc, hp, hg, hs, hv, hm, hu, hp1, hp2, initState]

/-- Witness for C9's amended theorem at a concrete run whose blob write
fails but which still appends its record and succeeds. -/
theorem blob_write_nonfatal_variant1_witness :
    (runPipeline1 { baseEnv with setValueOk := false }).2.savedKeys = [] :=
  (blob_write_nonfatal_variant1 { baseEnv with setValueOk := false }
    baseInput rfl rfl rfl rfl rfl rfl rfl).1

/-- Counterexample to C9 as stated: in variant 2 a blob-store write
failure is fatal and nothing is appended, while the same run in variant 1
succeeds. -/
theorem blob_write_variant2_counterexample :
    (runPipeline2 { baseEnv with setValueOk := false }).1 = .fatal "setValue" ∧
    (runPipeline2 { baseEnv with setValueOk := false }).2.pushed = [] ∧
    (runPipeline1 { baseEnv with setValueOk := false }).1 = .ok :=
  ⟨rfl, rfl, rfl⟩

end TVCapture
